import Mathlib

/-!
Verification of the typst-api resume-generation service (`src/main.py`).

The file shallowly embeds the pure core of the program:

* `clean_yaml_content` — the content normalizer (`main.py` lines 169-175):
  Python `str.strip` followed by the two anchored `re.sub` calls
  (`^(three backticks)(yaml|yml)?\s*\n?` case-insensitive, and
  `\n?(three backticks)\s*$`) and a final `strip`.
* `inject_theme` — the theme injector (`main.py` lines 178-191), with YAML
  values modelled by an inductive `Yaml` type, Python dict/str/list
  membership, indexing and item assignment modelled by `pyContains`,
  `pyGetItem`, `pySetItem` (raising `PyErr.typeError` exactly where CPython
  raises `TypeError`), and the external parser/serializer (PyYAML
  `safe_load` / `dump`) passed in as parameters.
* `format_validation_errors` (`main.py` lines 194-204).
* `generate_resume` — the POST handler (`main.py` lines 40-166), with the
  external collaborators (RenderCV model builder, Typst generator, Typst
  compiler, Supabase upload, uuid generation and environment configuration)
  abstracted into an `Env` record of oracles, and the Flask request
  extraction elided: the handler takes the already-extracted
  `yaml_content` and `theme` strings.
-/

set_option autoImplicit false

namespace TypstApi

/-- The whitespace characters recognised by Python `str.strip` and by `\s`
in the regular expressions of `clean_yaml_content` (ASCII range). -/
def isPySpace (c : Char) : Bool :=
  c == ' ' || c == '\t' || c == '\n' || c == '\r' || c == '\x0b' || c == '\x0c'

/-- Python `str.strip()` on a character list: drop whitespace from both ends. -/
def pyStrip (cs : List Char) : List Char :=
  ((cs.dropWhile isPySpace).reverse.dropWhile isPySpace).reverse

/-- ASCII lower-casing, used to model the `re.IGNORECASE` flag on the
leading-fence regular expression. -/
def toLowerAscii (c : Char) : Char :=
  if 'A' ≤ c ∧ c ≤ 'Z' then Char.ofNat (c.toNat + 32) else c

/-- Case-insensitive pattern removal: if `cs` starts (up to ASCII case) with
the lowercase pattern `p`, return the remainder, else `none`.  Models one
alternative of the `(?:yaml|yml)?` group under `re.IGNORECASE`. -/
def ciStripTag : List Char → List Char → Option (List Char)
  | [], cs => some cs
  | _ :: _, [] => none
  | p :: ps, c :: cs => if toLowerAscii c = p then ciStripTag ps cs else none

/-- The remainder of the leading-fence match after the three backticks:
the optional `yaml`/`yml` language tag (alternatives tried in the regex
order `yaml`, then `yml`, then empty) followed by the greedy `\s*`
(`\n?` after a greedy `\s*` can only match the empty string). -/
def afterFenceTag (rest : List Char) : List Char :=
  (match ciStripTag ['y', 'a', 'm', 'l'] rest with
   | some r => r
   | none =>
     match ciStripTag ['y', 'm', 'l'] rest with
     | some r => r
     | none => rest).dropWhile isPySpace

/-- `re.sub(r'^(three backticks)(?:yaml|yml)?\s*\n?', '', content, flags=re.IGNORECASE)`:
anchored at the start of the string (no `re.MULTILINE`), so it removes at
most one leading fence marker. -/
def stripLeadingFence (cs : List Char) : List Char :=
  if cs.take 3 = ['`', '`', '`'] then afterFenceTag (cs.drop 3) else cs

/-- `re.sub(r'\n?(three backticks)\s*$', '', content)`: a match must end at the
string's `$` position, so the matched text is an optional newline, three
backticks, and a run of whitespace reaching the end of the string; the
leftmost such match takes the newline directly before the backticks when
present.  At most one non-overlapping match exists. -/
def stripTrailingFence (cs : List Char) : List Char :=
  let r := cs.reverse.dropWhile isPySpace
  if r.take 3 = ['`', '`', '`'] then
    let rest := r.drop 3
    if rest.take 1 = ['\n'] then (rest.drop 1).reverse else rest.reverse
  else cs

/-- `clean_yaml_content` (`main.py` 169-175): strip, remove one leading fence
marker, remove one trailing fence marker, strip again. -/
def clean_yaml_content (s : String) : String :=
  String.mk (pyStrip (stripTrailingFence (stripLeadingFence (pyStrip s.toList))))

example : clean_yaml_content "```yaml\nA: 1\n```" = "A: 1" := by decide
example : clean_yaml_content "  hello  " = "hello" := by decide
example : clean_yaml_content "``````yaml" = "```yaml" := by decide
example : clean_yaml_content "```yaml" = "" := by decide
example : clean_yaml_content "```YML\nx: 2\n```  " = "x: 2" := by decide
example : clean_yaml_content "a\n```" = "a" := by decide
example : clean_yaml_content "````x" = "`x" := by decide

/-! ## YAML values and the Python operations used by `inject_theme` -/

/-- Model of the values PyYAML `safe_load` can hand to `inject_theme`
(string keys suffice for the keys the code touches). -/
inductive Yaml where
  | null
  | bool (b : Bool)
  | int (n : Int)
  | str (s : String)
  | list (xs : List Yaml)
  | map (kvs : List (String × Yaml))

/-- Python exceptions that the modelled operations can raise. -/
inductive PyErr where
  | typeError
  | keyError
deriving DecidableEq

/-- Python `str(e)` for a modelled exception (the handler's outer
`except Exception as e` reports `str(e)`). -/
def pyErrStr : PyErr → String
  | .typeError => "TypeError"
  | .keyError => "KeyError"

/-- First-occurrence association-list lookup, the key-membership/indexing
order of a Python `dict`. -/
def lookupKey : List (String × Yaml) → String → Option Yaml
  | [], _ => none
  | (k', v) :: rest, k => if k' = k then some v else lookupKey rest k

/-- `d[k] = v` on an association list: replace the first binding of `k`,
or append a fresh one (Python dicts keep the key's original position). -/
def setKey : List (String × Yaml) → String → Yaml → List (String × Yaml)
  | [], k, v => [(k, v)]
  | (k', v') :: rest, k, v =>
    if k' = k then (k, v) :: rest else (k', v') :: setKey rest k v

/-- Is `needle` a contiguous substring of `hay`?  Python `str in str`. -/
def containsSub (hay needle : List Char) : Bool :=
  match hay with
  | [] => needle.isEmpty
  | _ :: t => needle.isPrefixOf hay || containsSub t needle

/-- Python `s in v` for a string `s` and an arbitrary value `v`:
key membership for dicts, substring for strings, element equality for
lists, and `TypeError` for non-container values. -/
def pyContains (s : String) : Yaml → Except PyErr Bool
  | .map kvs => .ok (lookupKey kvs s).isSome
  | .str t => .ok (containsSub t.toList s.toList)
  | .list xs => .ok (xs.any fun y => match y with | .str t => t == s | _ => false)
  | .null => .error .typeError
  | .bool _ => .error .typeError
  | .int _ => .error .typeError

/-- Python `v[k]` for a string key `k`: dict lookup (`KeyError` when the
key is absent), `TypeError` on every non-dict value. -/
def pyGetItem : Yaml → String → Except PyErr Yaml
  | .map kvs, k =>
    match lookupKey kvs k with
    | some v => .ok v
    | none => .error .keyError
  | _, _ => .error .typeError

/-- Python `v[k] = x` for a string key: dict update, `TypeError` on every
non-dict value. -/
def pySetItem : Yaml → String → Yaml → Except PyErr Yaml
  | .map kvs, k, v => .ok (.map (setKey kvs k v))
  | _, _, _ => .error .typeError

/-- The body of `inject_theme`'s `try` block after `yaml.safe_load`
(`main.py` 182-188), on the parsed value: `data = data or {}` for `None`,
`if "design" not in data: data["design"] = {}`,
`if "theme" not in data["design"]: data["design"]["theme"] = theme`.
Python mutation is rendered functionally: the final dict is rebuilt with
`setKey` where the code mutates in place. -/
def inject_theme_data (data : Yaml) (theme : String) : Except PyErr Yaml :=
  let d0 := match data with | .null => Yaml.map [] | _ => data
  match pyContains "design" d0 with
  | .error e => .error e
  | .ok hasDesign =>
    match (if hasDesign then Except.ok d0 else pySetItem d0 "design" (Yaml.map [])) with
    | .error e => .error e
    | .ok d1 =>
      match pyGetItem d1 "design" with
      | .error e => .error e
      | .ok design =>
        match pyContains "theme" design with
        | .error e => .error e
        | .ok hasTheme =>
          if hasTheme then .ok d1
          else
            match pySetItem design "theme" (Yaml.str theme) with
            | .error e => .error e
            | .ok design2 => pySetItem d1 "design" design2

/-- Outcome of PyYAML `yaml.safe_load` (an external collaborator):
either a parsed value or a `yaml.YAMLError`. -/
inductive ParseResult where
  | parsed (y : Yaml)
  | parseError

/-- `inject_theme` (`main.py` 178-191): parse; on `yaml.YAMLError` return
the input unchanged; otherwise run the injection body and serialize with
the external `yaml.dump` (passed in as `dump`).  Any non-`YAMLError`
exception from the body escapes (the `except` clause catches only
`yaml.YAMLError`). -/
def inject_theme (parse : String → ParseResult) (dump : Yaml → String)
    (yaml_content theme : String) : Except PyErr String :=
  match parse yaml_content with
  | .parseError => .ok yaml_content
  | .parsed data =>
    match inject_theme_data data theme with
    | .ok d => .ok (dump d)
    | .error e => .error e

/-- The theme recorded under the top-level `design` mapping of a parsed
document, when both levels are mappings. -/
def designTheme : Yaml → Option Yaml
  | .map kvs =>
    match lookupKey kvs "design" with
    | some (.map dvs) => lookupKey dvs "theme"
    | _ => none
  | _ => none

/-- `true` exactly on the parsed values the injection body completes on:
`None` and mappings (with a further condition on the `design` entry). -/
def isMapOrNull : Yaml → Bool
  | .null => true
  | .map _ => true
  | _ => false

/-! ## Validation-error formatting -/

/-- One element of `RenderCVUserValidationError.validation_errors`: a dict
with optional `loc` (a path whose components are already rendered with
`str`) and optional `msg`, or an arbitrary non-dict object rendered with
`str`. -/
inductive VErrItem where
  | dict (loc : Option (List String)) (msg : Option String)
  | other (s : String)

/-- One line of `format_validation_errors`'s loop body (`main.py` 197-203)
at 1-based index `i`. -/
def formatOneError (i : Nat) : VErrItem → String
  | .dict loc msg =>
    toString i ++ ". " ++ String.intercalate "." (loc.getD []) ++ ": "
      ++ msg.getD "Unknown error"
  | .other s => toString i ++ ". " ++ s

/-- The `error_msgs` list accumulated by the `for i, error in
enumerate(errors, 1)` loop, starting at index `i`. -/
def formatErrorMsgs (i : Nat) : List VErrItem → List String
  | [] => []
  | e :: es => formatOneError i e :: formatErrorMsgs (i + 1) es

/-- `format_validation_errors` (`main.py` 194-204): render each diagnostic
with its 1-based index and join with `"; "`. -/
def format_validation_errors (errors : List VErrItem) : String :=
  String.intercalate "; " (formatErrorMsgs 1 errors)

/-! ## The POST handler and its external collaborators -/

/-- Outcome of `build_rendercv_dictionary_and_model` on the injected YAML
text: a model (represented by its `cv.name`, the only field the handler
reads), a `RenderCVUserValidationError` with its diagnostics, or any
other exception with its message. -/
inductive BuildResult where
  | built (name : String)
  | validationError (errors : List VErrItem)
  | buildError (msg : String)

/-- Outcome of `generate_typst`: a path, or an exception message. -/
inductive GenResult where
  | genOk (path : String)
  | genError (msg : String)

/-- Outcome of `typst.compile`: PDF bytes (represented by their length,
the only property the handler reads), or an exception message. -/
inductive CompileResult where
  | compOk (nbytes : Nat)
  | compError (msg : String)

/-- The external collaborators and process-wide configuration visible to
one request: PyYAML, the RenderCV import and builder, the Typst generator
and compiler, the Supabase environment variables, the generated uuid and
the storage upload call. -/
structure Env where
  parse : String → ParseResult
  dump : Yaml → String
  importError : Option String
  build : String → BuildResult
  gen : String → GenResult
  comp : String → CompileResult
  supabaseUrl : String
  supabaseKey : String
  supabaseBucket : String
  newUuid : String
  upload : String → Nat → Option String

/-- An HTTP response of the handler: status code and the JSON fields it
sets (`success`, optional `error`, optional `url`, `logs`). -/
structure Response where
  status : Nat
  success : Bool
  error : Option String
  url : Option String
  logs : List String
deriving DecidableEq

/-- `generate_resume` (`main.py` 40-166) after request extraction, on the
document body `yaml_content` and the (defaulted) `theme`.  Empty strings
stand for unset/empty `SUPABASE_URL`/`SUPABASE_KEY` (both falsy in
`get_supabase_client`, `main.py` 24-28). -/
def generate_resume (env : Env) (yaml_content theme : String) : Response :=
  if yaml_content = "" then
    ⟨400, false, some "No YAML content provided", none, []⟩
  else
    let logs := ["Received YAML (" ++ toString yaml_content.length ++ " chars)",
                 "Theme: " ++ theme]
    let cleaned := clean_yaml_content yaml_content
    match env.importError with
    | some e =>
      ⟨500, false, some ("RenderCV import failed: " ++ e), none,
        logs ++ ["ERROR: RenderCV import failed: " ++ e]⟩
    | none =>
      match inject_theme env.parse env.dump cleaned theme with
      | .error e =>
        ⟨500, false, some (pyErrStr e), none,
          logs ++ ["ERROR: Unexpected error: " ++ pyErrStr e]⟩
      | .ok injected =>
        match env.build injected with
        | .validationError errs =>
          let msg := format_validation_errors errs
          ⟨400, false, some ("YAML validation failed: " ++ msg), none,
            logs ++ ["ERROR: YAML validation failed: " ++ msg]⟩
        | .buildError m =>
          ⟨400, false, some ("Model build failed: " ++ m), none,
            logs ++ ["ERROR: Model build failed: " ++ m]⟩
        | .built name =>
          let logs := logs ++ ["Built RenderCV model: " ++ name]
          match env.gen name with
          | .genError m =>
            ⟨500, false, some ("Typst generation failed: " ++ m), none,
              logs ++ ["ERROR: Typst generation failed: " ++ m]⟩
          | .genOk path =>
            let logs := logs ++ ["Generated Typst file"]
            match env.comp path with
            | .compError m =>
              ⟨500, false, some ("Typst compilation failed: " ++ m), none,
                logs ++ ["ERROR: Typst compilation failed: " ++ m]⟩
            | .compOk nbytes =>
              let logs := logs ++ ["Compiled PDF (" ++ toString nbytes ++ " bytes)"]
              if env.supabaseUrl = "" ∨ env.supabaseKey = "" then
                ⟨500, false,
                  some "Supabase storage not configured. Set SUPABASE_URL and SUPABASE_KEY environment variables.",
                  none, logs ++ ["ERROR: Supabase not configured"]⟩
              else
                let filePath := env.newUuid ++ ".pdf"
                match env.upload filePath nbytes with
                | some m =>
                  ⟨500, false, some ("Supabase upload failed: " ++ m), none,
                    logs ++ ["ERROR: Supabase upload failed: " ++ m]⟩
                | none =>
                  ⟨200, true, none,
                    some (env.supabaseUrl ++ "/storage/v1/object/public/"
                      ++ env.supabaseBucket ++ "/" ++ filePath),
                    logs ++ ["Uploaded to Supabase: " ++ filePath]⟩

/-! ## List helper lemmas for the normalizer proofs -/

lemma dropWhile_self_append (p : Char → Bool) (cs : List Char) :
    ∃ ws, cs = ws ++ cs.dropWhile p ∧ ws.all p = true := by
  induction cs with
  | nil => exact ⟨[], rfl, rfl⟩
  | cons c t ih =>
    by_cases hp : p c
    · obtain ⟨ws, h1, h2⟩ := ih
      refine ⟨c :: ws, ?_, ?_⟩
      · simp only [List.dropWhile, hp]
        exact congrArg (c :: ·) h1
      · simp [h2, hp]
    · exact ⟨[], by simp [List.dropWhile, hp], rfl⟩

lemma dropWhile_idem (p : Char → Bool) (cs : List Char) :
    (cs.dropWhile p).dropWhile p = cs.dropWhile p := by
  induction cs with
  | nil => rfl
  | cons c t ih =>
    by_cases hp : p c
    · simpa [List.dropWhile, hp] using ih
    · simp [List.dropWhile, hp]

lemma length_dropWhile_le (p : Char → Bool) (cs : List Char) :
    (cs.dropWhile p).length ≤ cs.length := by
  induction cs with
  | nil => exact Nat.le_refl _
  | cons c t ih =>
    by_cases hp : p c
    · simp only [List.dropWhile, hp]
      exact Nat.le_trans ih (Nat.le_succ _)
    · simp [List.dropWhile, hp]

lemma head_false_of_dropWhile_eq_self (p : Char → Bool) (c : Char) (t : List Char)
    (h : (c :: t).dropWhile p = c :: t) : p c = false := by
  by_cases hp : p c
  · exfalso
    simp only [List.dropWhile, hp, if_true] at h
    have hlen := congrArg List.length h
    have hle := length_dropWhile_le p t
    simp only [List.length_cons] at hlen
    omega
  · simpa using hp

lemma pyStrip_stripped_rev (cs : List Char) :
    (pyStrip cs).reverse.dropWhile isPySpace = (pyStrip cs).reverse := by
  unfold pyStrip
  rw [List.reverse_reverse]
  exact dropWhile_idem _ _

lemma pyStrip_stripped (cs : List Char) :
    (pyStrip cs).dropWhile isPySpace = pyStrip cs := by
  set p := isPySpace with hp
  set a := cs.dropWhile p with ha_def
  have ha : a.dropWhile p = a := dropWhile_idem p cs
  obtain ⟨ws, hws, _⟩ := dropWhile_self_append p a.reverse
  have hpy : pyStrip cs = (a.reverse.dropWhile p).reverse := rfl
  have ha2 : a = (a.reverse.dropWhile p).reverse ++ ws.reverse := by
    have h := congrArg List.reverse hws
    simpa using h
  rw [hpy]
  cases hbr : (a.reverse.dropWhile p).reverse with
  | nil => simp
  | cons c t =>
    have hac : a = c :: (t ++ ws.reverse) := by
      rw [ha2, hbr]; simp
    have hpc : p c = false := by
      apply head_false_of_dropWhile_eq_self p c (t ++ ws.reverse)
      rw [← hac]; exact ha
    simp [List.dropWhile, hpc]

lemma pyStrip_idem (cs : List Char) : pyStrip (pyStrip cs) = pyStrip cs := by
  show ((((pyStrip cs).dropWhile isPySpace).reverse).dropWhile isPySpace).reverse = pyStrip cs
  rw [pyStrip_stripped, pyStrip_stripped_rev, List.reverse_reverse]

lemma mk_toList (s : String) : String.mk s.toList = s := rfl

/-! ## The shapes of the text removed by the two fence regular expressions -/

/-- What the leading-fence substitution may remove: nothing, or three
backticks followed by an optional case-insensitive `yaml`/`yml` tag and a
run of whitespace. -/
def IsOpenerForm (o : List Char) : Prop :=
  o = [] ∨ ∃ tag ws, o = ['`', '`', '`'] ++ tag ++ ws
    ∧ (tag = [] ∨ tag.map toLowerAscii = ['y', 'a', 'm', 'l']
        ∨ tag.map toLowerAscii = ['y', 'm', 'l'])
    ∧ ws.all isPySpace = true

/-- What the trailing-fence substitution may remove: nothing, or an
optional newline, three backticks and a run of whitespace. -/
def IsCloserForm (c : List Char) : Prop :=
  c = [] ∨ ∃ nl ws, c = nl ++ ['`', '`', '`'] ++ ws
    ∧ (nl = [] ∨ nl = ['\n']) ∧ ws.all isPySpace = true

lemma ciStripTag_some : ∀ (ps cs r : List Char), ciStripTag ps cs = some r →
    ∃ tag, cs = tag ++ r ∧ tag.map toLowerAscii = ps := by
  intro ps
  induction ps with
  | nil =>
    intro cs r h
    simp only [ciStripTag, Option.some.injEq] at h
    exact ⟨[], by simp [h], rfl⟩
  | cons a ps ih =>
    intro cs r h
    cases cs with
    | nil => simp [ciStripTag] at h
    | cons c cs' =>
      simp only [ciStripTag] at h
      split at h
      · next heq =>
        obtain ⟨tag, h1, h2⟩ := ih cs' r h
        exact ⟨c :: tag, by simp [h1], by simp [h2, heq]⟩
      · exact absurd h (by simp)

lemma afterFenceTag_decomp (rest : List Char) :
    ∃ tag ws, rest = tag ++ ws ++ afterFenceTag rest
      ∧ (tag = [] ∨ tag.map toLowerAscii = ['y', 'a', 'm', 'l']
          ∨ tag.map toLowerAscii = ['y', 'm', 'l'])
      ∧ ws.all isPySpace = true := by
  cases h1 : ciStripTag ['y', 'a', 'm', 'l'] rest with
  | some r =>
    have hval : afterFenceTag rest = r.dropWhile isPySpace := by
      simp [afterFenceTag, h1]
    obtain ⟨tag, htag, hmap⟩ := ciStripTag_some _ _ _ h1
    obtain ⟨ws, hws, hall⟩ := dropWhile_self_append isPySpace r
    refine ⟨tag, ws, ?_, Or.inr (Or.inl hmap), hall⟩
    rw [hval, htag, List.append_assoc]
    exact congrArg (tag ++ ·) hws
  | none =>
    cases h2 : ciStripTag ['y', 'm', 'l'] rest with
    | some r =>
      have hval : afterFenceTag rest = r.dropWhile isPySpace := by
        simp [afterFenceTag, h1, h2]
      obtain ⟨tag, htag, hmap⟩ := ciStripTag_some _ _ _ h2
      obtain ⟨ws, hws, hall⟩ := dropWhile_self_append isPySpace r
      refine ⟨tag, ws, ?_, Or.inr (Or.inr hmap), hall⟩
      rw [hval, htag, List.append_assoc]
      exact congrArg (tag ++ ·) hws
    | none =>
      have hval : afterFenceTag rest = rest.dropWhile isPySpace := by
        simp [afterFenceTag, h1, h2]
      obtain ⟨ws, hws, hall⟩ := dropWhile_self_append isPySpace rest
      exact ⟨[], ws, by rw [hval]; simpa using hws, Or.inl rfl, hall⟩

lemma stripLeadingFence_decomp (cs : List Char) :
    ∃ o, cs = o ++ stripLeadingFence cs ∧ IsOpenerForm o := by
  by_cases h3 : cs.take 3 = ['`', '`', '`']
  · have hval : stripLeadingFence cs = afterFenceTag (cs.drop 3) := by
      simp [stripLeadingFence, h3]
    obtain ⟨tag, ws, hdec, htag, hws⟩ := afterFenceTag_decomp (cs.drop 3)
    refine ⟨['`', '`', '`'] ++ tag ++ ws, ?_, Or.inr ⟨tag, ws, rfl, htag, hws⟩⟩
    rw [hval]
    calc cs = cs.take 3 ++ cs.drop 3 := (List.take_append_drop 3 cs).symm
      _ = ['`', '`', '`'] ++ (tag ++ ws ++ afterFenceTag (cs.drop 3)) := by
            rw [h3, ← hdec]
      _ = ['`', '`', '`'] ++ tag ++ ws ++ afterFenceTag (cs.drop 3) := by
            simp [List.append_assoc]
  · exact ⟨[], by simp [stripLeadingFence, h3], Or.inl rfl⟩

lemma stripTrailingFence_decomp (cs : List Char) :
    ∃ c, cs = stripTrailingFence cs ++ c ∧ IsCloserForm c := by
  obtain ⟨ws, hws, hall⟩ := dropWhile_self_append isPySpace cs.reverse
  have hallrev : ws.reverse.all isPySpace = true := by
    simp only [List.all_eq_true] at hall ⊢
    intro x hx
    exact hall x (List.mem_reverse.mp hx)
  have hcs : cs = (cs.reverse.dropWhile isPySpace).reverse ++ ws.reverse := by
    have h := congrArg List.reverse hws
    simpa using h
  by_cases h3 : (cs.reverse.dropWhile isPySpace).take 3 = ['`', '`', '`']
  · have hr3 : cs.reverse.dropWhile isPySpace
        = ['`', '`', '`'] ++ (cs.reverse.dropWhile isPySpace).drop 3 := by
      conv_lhs => rw [← List.take_append_drop 3 (cs.reverse.dropWhile isPySpace)]
      rw [h3]
    by_cases h1 : ((cs.reverse.dropWhile isPySpace).drop 3).take 1 = ['\n']
    · have hval : stripTrailingFence cs
          = (((cs.reverse.dropWhile isPySpace).drop 3).drop 1).reverse := by
        simp [stripTrailingFence, h3, h1]
      have hd : (cs.reverse.dropWhile isPySpace).drop 3
          = ['\n'] ++ ((cs.reverse.dropWhile isPySpace).drop 3).drop 1 := by
        conv_lhs => rw [← List.take_append_drop 1 ((cs.reverse.dropWhile isPySpace).drop 3)]
        rw [h1]
      refine ⟨['\n'] ++ ['`', '`', '`'] ++ ws.reverse, ?_,
        Or.inr ⟨['\n'], ws.reverse, rfl, Or.inr rfl, hallrev⟩⟩
      rw [hval]
      conv_lhs => rw [hcs]
      conv_lhs => rw [hr3, hd]
      simp [List.reverse_append]
    · have hval : stripTrailingFence cs
          = ((cs.reverse.dropWhile isPySpace).drop 3).reverse := by
        simp [stripTrailingFence, h3, h1]
      refine ⟨[] ++ ['`', '`', '`'] ++ ws.reverse, ?_,
        Or.inr ⟨[], ws.reverse, rfl, Or.inl rfl, hallrev⟩⟩
      rw [hval]
      conv_lhs => rw [hcs]
      conv_lhs => rw [hr3]
      simp [List.reverse_append]
  · have hval : stripTrailingFence cs = cs := by
      simp [stripTrailingFence, h3]
    exact ⟨[], by simp [hval], Or.inl rfl⟩

/-! ## Claim C1 — normalizer idempotence -/

/-- C1 (counterexample): `clean_yaml_content` is not idempotent.  On the
input of six backticks followed by `yaml`, one application removes only
the first three backticks (the leading regular expression matches exactly
three) and the last three (the trailing one), leaving three backticks and
`yaml`, which a second application removes entirely. -/
theorem clean_yaml_content_not_idempotent :
    clean_yaml_content (clean_yaml_content "``````yaml")
      ≠ clean_yaml_content "``````yaml" := by decide

/-- C1 (amended): the normalizer is idempotent on every input whose
once-normalized form neither starts nor ends with a three-backtick fence
marker; a second application changes the result only by stripping a fence
marker freshly exposed by the first. -/
theorem clean_yaml_content_idem_of_no_fence (s : String)
    (h1 : ((clean_yaml_content s).toList).take 3 ≠ ['`', '`', '`'])
    (h2 : ((clean_yaml_content s).toList).reverse.take 3 ≠ ['`', '`', '`']) :
    clean_yaml_content (clean_yaml_content s) = clean_yaml_content s := by
  have h1d : ((clean_yaml_content s).data).take 3 ≠ ['`', '`', '`'] := h1
  have h2d : ((clean_yaml_content s).data).reverse.take 3 ≠ ['`', '`', '`'] := h2
  have ht : (clean_yaml_content s).toList
      = pyStrip (stripTrailingFence (stripLeadingFence (pyStrip s.toList))) := rfl
  have hstrip : pyStrip ((clean_yaml_content s).toList) = (clean_yaml_content s).toList := by
    rw [ht, pyStrip_idem]
  have hlead : stripLeadingFence ((clean_yaml_content s).toList)
      = (clean_yaml_content s).toList := by
    simp [stripLeadingFence, h1d]
  have hrevd : List.dropWhile isPySpace ((clean_yaml_content s).data).reverse
      = ((clean_yaml_content s).data).reverse := by
    show List.dropWhile isPySpace ((clean_yaml_content s).toList).reverse
      = ((clean_yaml_content s).toList).reverse
    rw [ht]; exact pyStrip_stripped_rev _
  have htrail : stripTrailingFence ((clean_yaml_content s).toList)
      = (clean_yaml_content s).toList := by
    simp [stripTrailingFence, hrevd, h2d]
  show String.mk (pyStrip (stripTrailingFence (stripLeadingFence
      (pyStrip ((clean_yaml_content s).toList))))) = clean_yaml_content s
  rw [hstrip, hlead, htrail, hstrip, mk_toList]

/-- C1 (witness for the amended theorem): on a well-formed fenced document
the once-normalized form is fence-free, so normalization is idempotent
there. -/
theorem clean_yaml_content_idem_witness :
    clean_yaml_content (clean_yaml_content "```yaml\nA: 1\n```")
      = clean_yaml_content "```yaml\nA: 1\n```" :=
  clean_yaml_content_idem_of_no_fence "```yaml\nA: 1\n```" (by decide) (by decide)

/-! ## Claim C2 — normalizer contract -/

/-- C2: the normalizer's contract.  (1) The concrete example:
`clean_yaml_content` on a fenced YAML block returns the inner payload.
(2) For every input, the stripped input splits as `opener ++ body ++
closer`, where the opener is empty or one leading fence marker (three
backticks, optional case-insensitive `yaml`/`yml` tag, trailing
whitespace), the closer is empty or one trailing fence marker (optional
newline, three backticks, trailing whitespace), and the result is exactly
the whitespace-trimmed body — so at most one marker is removed at each
end and the content between them is not otherwise altered.  (3) Input
whose stripped form has no leading or trailing fence marker passes
through with only whitespace trimming. -/
theorem clean_yaml_content_contract :
    clean_yaml_content "```yaml\nA: 1\n```" = "A: 1"
    ∧ (∀ s : String, ∃ o b c, pyStrip s.toList = o ++ b ++ c
        ∧ IsOpenerForm o ∧ IsCloserForm c
        ∧ clean_yaml_content s = String.mk (pyStrip b))
    ∧ (∀ s : String, (pyStrip s.toList).take 3 ≠ ['`', '`', '`']
        → (pyStrip s.toList).reverse.take 3 ≠ ['`', '`', '`']
        → clean_yaml_content s = String.mk (pyStrip s.toList)) := by
  refine ⟨by decide, ?_, ?_⟩
  · intro s
    obtain ⟨o, ho, hoform⟩ := stripLeadingFence_decomp (pyStrip s.toList)
    obtain ⟨c, hc, hcform⟩ :=
      stripTrailingFence_decomp (stripLeadingFence (pyStrip s.toList))
    refine ⟨o, stripTrailingFence (stripLeadingFence (pyStrip s.toList)), c,
      ?_, hoform, hcform, rfl⟩
    rw [List.append_assoc, ← hc]
    exact ho
  · intro s h1 h2
    have h1d : (pyStrip s.data).take 3 ≠ ['`', '`', '`'] := h1
    have h2d : (pyStrip s.data).reverse.take 3 ≠ ['`', '`', '`'] := h2
    have hlead : stripLeadingFence (pyStrip s.toList) = pyStrip s.toList := by
      simp [stripLeadingFence, h1d]
    have hrevd : List.dropWhile isPySpace (pyStrip s.data).reverse
        = (pyStrip s.data).reverse := pyStrip_stripped_rev _
    have htrail : stripTrailingFence (pyStrip s.toList) = pyStrip s.toList := by
      simp [stripTrailingFence, hrevd, h2d]
    show String.mk (pyStrip (stripTrailingFence (stripLeadingFence
        (pyStrip s.toList)))) = String.mk (pyStrip s.toList)
    rw [hlead, htrail, pyStrip_idem]

/-- C2 (witness): the pass-through clause of the contract applied to the
fence-free input "A: 1". -/
theorem clean_yaml_content_contract_witness :
    clean_yaml_content "A: 1" = String.mk (pyStrip ("A: 1".toList)) :=
  clean_yaml_content_contract.2.2 "A: 1" (by decide) (by decide)

/-! ## Injector lemmas -/

lemma lookupKey_setKey (l : List (String × Yaml)) (k : String) (v : Yaml) :
    lookupKey (setKey l k v) k = some v := by
  induction l with
  | nil => simp [setKey, lookupKey]
  | cons p rest ih =>
    obtain ⟨k', v'⟩ := p
    by_cases h : k' = k
    · simp [setKey, h, lookupKey]
    · simp [setKey, h, lookupKey, ih]

/-- The injection body raises `TypeError` on every parsed value that is
neither `None` nor a mapping (list, scalar, string or boolean): either
the `in` test or the indexing/assignment is a `TypeError` in Python. -/
lemma inject_theme_data_nonmap (data : Yaml) (theme : String)
    (h : isMapOrNull data = false) :
    inject_theme_data data theme = Except.error PyErr.typeError := by
  cases data with
  | null => simp [isMapOrNull] at h
  | map kvs => simp [isMapOrNull] at h
  | bool b => rfl
  | int n => rfl
  | str s =>
    cases hb : containsSub s.data ['d', 'e', 's', 'i', 'g', 'n'] with
    | false => simp [inject_theme_data, pyContains, hb, pySetItem]
    | true => simp [inject_theme_data, pyContains, hb, pyGetItem]
  | list xs =>
    cases hb : (xs.any fun y => match y with | .str t => t == "design" | _ => false) with
    | false => simp [inject_theme_data, pyContains, hb, pySetItem]
    | true => simp [inject_theme_data, pyContains, hb, pyGetItem]

/-! ## Sample oracles for the external collaborators (used by witnesses) -/

/-- A parser oracle returning a fixed parsed value on every input. -/
def parseConst (y : Yaml) : String → ParseResult := fun _ => .parsed y

/-- A parser oracle that fails with `yaml.YAMLError` on every input. -/
def parseFail : String → ParseResult := fun _ => .parseError

/-- A serializer oracle returning a fixed document text. -/
def dumpConst (out : String) : Yaml → String := fun _ => out

/-! ## Claim C3 — theme injection postcondition -/

/-- C3 (counterexample): an input that parses as the mapping with the
integer 5 as its `design` entry makes `inject_theme` raise `TypeError`
(`"theme" not in 5` — an int is not iterable): no document with a
populated `design.theme` is returned, and the original text is not
returned either, refuting the claim's quantification over all parsed
mappings. -/
theorem inject_theme_nonmapping_design_raises :
    inject_theme (parseConst (Yaml.map [("design", Yaml.int 5)])) (dumpConst "doc")
      "design: 5" "classic" = Except.error PyErr.typeError := rfl

/-- C3 (amended): for every input that parses as a mapping whose `design`
entry, when present, is itself a mapping, the injection body succeeds and
the resulting document's `design.theme` equals the original `design.theme`
when one was present (never overwritten) and the supplied default
otherwise. -/
theorem inject_theme_populates_theme (theme : String) (kvs : List (String × Yaml))
    (hd : lookupKey kvs "design" = none
      ∨ ∃ dvs, lookupKey kvs "design" = some (Yaml.map dvs)) :
    ∃ d, inject_theme_data (Yaml.map kvs) theme = Except.ok d
      ∧ designTheme d = some ((designTheme (Yaml.map kvs)).getD (Yaml.str theme)) := by
  rcases hd with hnone | ⟨dvs, hsome⟩
  · refine ⟨Yaml.map (setKey (setKey kvs "design" (Yaml.map []))
      "design" (Yaml.map [("theme", Yaml.str theme)])), ?_, ?_⟩
    · simp [inject_theme_data, pyContains, pyGetItem, pySetItem, hnone,
        lookupKey_setKey, lookupKey, setKey]
    · simp [designTheme, hnone, lookupKey_setKey, lookupKey]
  · cases ht : lookupKey dvs "theme" with
    | some t =>
      refine ⟨Yaml.map kvs, ?_, ?_⟩
      · simp [inject_theme_data, pyContains, pyGetItem, hsome, ht]
      · simp [designTheme, hsome, ht]
    | none =>
      refine ⟨Yaml.map (setKey kvs "design"
        (Yaml.map (setKey dvs "theme" (Yaml.str theme)))), ?_, ?_⟩
      · simp [inject_theme_data, pyContains, pyGetItem, pySetItem, hsome, ht]
      · simp [designTheme, hsome, ht, lookupKey_setKey]

/-- C3 (witness for the amended theorem): a document already carrying
`design.theme = "engineeringresumes"` keeps it when "classic" is
injected. -/
theorem inject_theme_populates_theme_witness :
    ∃ d, inject_theme_data
        (Yaml.map [("design", Yaml.map [("theme", Yaml.str "engineeringresumes")])])
        "classic" = Except.ok d
      ∧ designTheme d = some ((designTheme (Yaml.map
          [("design", Yaml.map [("theme", Yaml.str "engineeringresumes")])])).getD
            (Yaml.str "classic")) :=
  inject_theme_populates_theme "classic"
    [("design", Yaml.map [("theme", Yaml.str "engineeringresumes")])]
    (Or.inr ⟨[("theme", Yaml.str "engineeringresumes")], rfl⟩)

/-! ## Claim C4 — injector fail-open -/

/-- C4: whenever the structured-document parse raises `yaml.YAMLError`,
`inject_theme` returns the original input text unchanged, for every
serializer, input and default theme. -/
theorem inject_theme_fail_open (parse : String → ParseResult) (dump : Yaml → String)
    (yaml_content theme : String) (h : parse yaml_content = ParseResult.parseError) :
    inject_theme parse dump yaml_content theme = Except.ok yaml_content := by
  simp [inject_theme, h]

/-- C4 (witness): a malformed document passed through the always-failing
parser comes back byte-identical. -/
theorem inject_theme_fail_open_witness :
    inject_theme parseFail (dumpConst "doc") ": bad: [yaml" "classic"
      = Except.ok ": bad: [yaml" :=
  inject_theme_fail_open parseFail (dumpConst "doc") ": bad: [yaml" "classic" rfl

/-! ## Handler lemmas and sample environments -/

lemma isPrefixOf_false_of_head_ne (c d : Char) (cs ds : List Char) (h : c ≠ d) :
    ((c :: cs).isPrefixOf (d :: ds)) = false := by
  have hcd : (c == d) = false := by simpa using h
  simp [List.isPrefixOf, hcd]

/-- The loop of `format_validation_errors` is Python's
`enumerate(errors, 1)` rendered entrywise. -/
lemma formatErrorMsgs_eq_enumFrom : ∀ (n : Nat) (es : List VErrItem),
    formatErrorMsgs n es = (List.enumFrom n es).map fun p => formatOneError p.1 p.2 := by
  intro n es
  induction es generalizing n with
  | nil => rfl
  | cons e es ih => simp [formatErrorMsgs, List.enumFrom, ih]

/-- A sample environment: fixed parser/serializer oracles, a configurable
build outcome and storage configuration, fixed generator, compiler,
bucket, uuid and a successful upload. -/
def sampleEnv (py : Yaml) (b : BuildResult) (url key : String) : Env :=
  { parse := parseConst py,
    dump := dumpConst "cv:\n  name: John Doe\ndesign:\n  theme: classic\n",
    importError := none,
    build := fun _ => b,
    gen := fun _ => .genOk "resume.typ",
    comp := fun _ => .compOk 12345,
    supabaseUrl := url,
    supabaseKey := key,
    supabaseBucket := "resumes",
    newUuid := "123e4567-e89b-12d3-a456-426614174000",
    upload := fun _ _ => none }

/-! ## Claim C5 — empty-body short-circuit -/

/-- C5: a request whose extracted document body is empty is answered with
status 400 and a non-empty error field, and the response is the same for
every environment of external collaborators — no normalization, import,
model build, generation, compilation or upload influences it, i.e. no
later pipeline stage runs. -/
theorem empty_body_short_circuit (env : Env) (theme : String) :
    generate_resume env "" theme
      = ⟨400, false, some "No YAML content provided", none, []⟩
    ∧ "No YAML content provided" ≠ "" :=
  ⟨rfl, by decide⟩

/-! ## Claim C6 — validation-failure path -/

/-- C6: when the model build fails with a validation error, the handler
answers 400; the error message joins the per-field diagnostics — each
rendered from its 1-based `enumerate(errors, 1)` index, dot-joined
location path and message — with "; ", and no log entry is a "Compiled"
entry. -/
theorem validation_failure_path (env : Env) (yaml_content theme injected : String)
    (errs : List VErrItem)
    (hne : yaml_content ≠ "")
    (himp : env.importError = none)
    (hinj : inject_theme env.parse env.dump (clean_yaml_content yaml_content) theme
      = Except.ok injected)
    (hbuild : env.build injected = BuildResult.validationError errs) :
    generate_resume env yaml_content theme
      = ⟨400, false,
          some ("YAML validation failed: " ++ format_validation_errors errs), none,
          ["Received YAML (" ++ toString yaml_content.length ++ " chars)",
           "Theme: " ++ theme,
           "ERROR: YAML validation failed: " ++ format_validation_errors errs]⟩
    ∧ format_validation_errors errs
        = String.intercalate "; " ((List.enumFrom 1 errs).map fun p => formatOneError p.1 p.2)
    ∧ ∀ l ∈ (generate_resume env yaml_content theme).logs,
        (("Compiled".data).isPrefixOf l.data) = false := by
  have heq : generate_resume env yaml_content theme
      = ⟨400, false,
          some ("YAML validation failed: " ++ format_validation_errors errs), none,
          ["Received YAML (" ++ toString yaml_content.length ++ " chars)",
           "Theme: " ++ theme,
           "ERROR: YAML validation failed: " ++ format_validation_errors errs]⟩ := by
    simp [generate_resume, hne, himp, hinj, hbuild]
  refine ⟨heq, ?_, ?_⟩
  · show String.intercalate "; " (formatErrorMsgs 1 errs) = _
    rw [formatErrorMsgs_eq_enumFrom]
  · rw [heq]
    intro l hl
    simp only [List.mem_cons, List.not_mem_nil, or_false] at hl
    rcases hl with rfl | rfl | rfl
    · exact isPrefixOf_false_of_head_ne 'C' 'R' _ _ (by decide)
    · exact isPrefixOf_false_of_head_ne 'C' 'T' _ _ (by decide)
    · exact isPrefixOf_false_of_head_ne 'C' 'E' _ _ (by decide)

/-- C6 (witness): a build returning two structured diagnostics yields the
400 response with the joined message and the three log entries. -/
theorem validation_failure_path_witness :
    generate_resume
        (sampleEnv (Yaml.map [])
          (BuildResult.validationError
            [VErrItem.dict (some ["cv", "name"]) (some "Field required"),
             VErrItem.other "extra diagnostic"])
          "https://supabase.example" "service-key")
        "cv:\n  age: 3" "classic"
      = ⟨400, false,
          some ("YAML validation failed: " ++ format_validation_errors
            [VErrItem.dict (some ["cv", "name"]) (some "Field required"),
             VErrItem.other "extra diagnostic"]), none,
          ["Received YAML (" ++ toString ("cv:\n  age: 3" : String).length ++ " chars)",
           "Theme: " ++ "classic",
           "ERROR: YAML validation failed: " ++ format_validation_errors
            [VErrItem.dict (some ["cv", "name"]) (some "Field required"),
             VErrItem.other "extra diagnostic"]]⟩ :=
  (validation_failure_path
    (sampleEnv (Yaml.map [])
      (BuildResult.validationError
        [VErrItem.dict (some ["cv", "name"]) (some "Field required"),
         VErrItem.other "extra diagnostic"])
      "https://supabase.example" "service-key")
    "cv:\n  age: 3" "classic" "cv:\n  name: John Doe\ndesign:\n  theme: classic\n"
    [VErrItem.dict (some ["cv", "name"]) (some "Field required"),
     VErrItem.other "extra diagnostic"]
    (by decide) rfl rfl rfl).1

/-! ## Claim C7 — happy-path response shape -/

/-- C7: when the body is non-empty and import, injection, model build,
generation, compilation and upload all succeed with storage configured,
the handler answers 200 with `success = true`, the public URL built from
the storage base address, bucket and fresh file name, and a log of
exactly six entries in order: received, theme, built, generated,
compiled, uploaded. -/
theorem happy_path_response (env : Env)
    (yaml_content theme injected name path : String) (nbytes : Nat)
    (hne : yaml_content ≠ "")
    (himp : env.importError = none)
    (hinj : inject_theme env.parse env.dump (clean_yaml_content yaml_content) theme
      = Except.ok injected)
    (hbuild : env.build injected = BuildResult.built name)
    (hgen : env.gen name = GenResult.genOk path)
    (hcomp : env.comp path = CompileResult.compOk nbytes)
    (hurl : env.supabaseUrl ≠ "")
    (hkey : env.supabaseKey ≠ "")
    (hupl : env.upload (env.newUuid ++ ".pdf") nbytes = none) :
    generate_resume env yaml_content theme
      = ⟨200, true, none,
         some (env.supabaseUrl ++ "/storage/v1/object/public/" ++ env.supabaseBucket
           ++ "/" ++ (env.newUuid ++ ".pdf")),
         ["Received YAML (" ++ toString yaml_content.length ++ " chars)",
          "Theme: " ++ theme,
          "Built RenderCV model: " ++ name,
          "Generated Typst file",
          "Compiled PDF (" ++ toString nbytes ++ " bytes)",
          "Uploaded to Supabase: " ++ (env.newUuid ++ ".pdf")]⟩ := by
  have hcfg : ¬ (env.supabaseUrl = "" ∨ env.supabaseKey = "") := by
    rintro (h | h)
    · exact hurl h
    · exact hkey h
  simp [generate_resume, hne, himp, hinj, hbuild, hgen, hcomp, hcfg, hupl]

/-- C7 (witness): a concrete fully-successful pipeline run. -/
theorem happy_path_response_witness :
    generate_resume
        (sampleEnv (Yaml.map []) (BuildResult.built "John Doe")
          "https://supabase.example" "service-key")
        "cv:\n  name: John Doe" "classic"
      = ⟨200, true, none,
         some ("https://supabase.example" ++ "/storage/v1/object/public/" ++ "resumes"
           ++ "/" ++ ("123e4567-e89b-12d3-a456-426614174000" ++ ".pdf")),
         ["Received YAML (" ++ toString ("cv:\n  name: John Doe" : String).length ++ " chars)",
          "Theme: " ++ "classic",
          "Built RenderCV model: " ++ "John Doe",
          "Generated Typst file",
          "Compiled PDF (" ++ toString 12345 ++ " bytes)",
          "Uploaded to Supabase: " ++ ("123e4567-e89b-12d3-a456-426614174000" ++ ".pdf")]⟩ :=
  happy_path_response
    (sampleEnv (Yaml.map []) (BuildResult.built "John Doe")
      "https://supabase.example" "service-key")
    "cv:\n  name: John Doe" "classic" "cv:\n  name: John Doe\ndesign:\n  theme: classic\n"
    "John Doe" "resume.typ" 12345
    (by decide) rfl rfl rfl rfl rfl (by decide) (by decide) rfl

/-! ## Claim C8 — storage-unconfigured failure -/

/-- C8: a request that reaches the persistence stage with `SUPABASE_URL`
or `SUPABASE_KEY` absent is answered 500; the error message names the
storage configuration, the log's last entry is the storage-stage error
line, and no URL is present. -/
theorem storage_unconfigured_failure (env : Env)
    (yaml_content theme injected name path : String) (nbytes : Nat)
    (hne : yaml_content ≠ "")
    (himp : env.importError = none)
    (hinj : inject_theme env.parse env.dump (clean_yaml_content yaml_content) theme
      = Except.ok injected)
    (hbuild : env.build injected = BuildResult.built name)
    (hgen : env.gen name = GenResult.genOk path)
    (hcomp : env.comp path = CompileResult.compOk nbytes)
    (hcfg : env.supabaseUrl = "" ∨ env.supabaseKey = "") :
    generate_resume env yaml_content theme
      = ⟨500, false,
          some "Supabase storage not configured. Set SUPABASE_URL and SUPABASE_KEY environment variables.",
          none,
          ["Received YAML (" ++ toString yaml_content.length ++ " chars)",
           "Theme: " ++ theme,
           "Built RenderCV model: " ++ name,
           "Generated Typst file",
           "Compiled PDF (" ++ toString nbytes ++ " bytes)",
           "ERROR: Supabase not configured"]⟩
    ∧ (generate_resume env yaml_content theme).logs.getLast?
        = some "ERROR: Supabase not configured"
    ∧ (generate_resume env yaml_content theme).url = none := by
  have heq : generate_resume env yaml_content theme
      = ⟨500, false,
          some "Supabase storage not configured. Set SUPABASE_URL and SUPABASE_KEY environment variables.",
          none,
          ["Received YAML (" ++ toString yaml_content.length ++ " chars)",
           "Theme: " ++ theme,
           "Built RenderCV model: " ++ name,
           "Generated Typst file",
           "Compiled PDF (" ++ toString nbytes ++ " bytes)",
           "ERROR: Supabase not configured"]⟩ := by
    simp [generate_resume, hne, himp, hinj, hbuild, hgen, hcomp, hcfg]
  refine ⟨heq, ?_, ?_⟩
  · rw [heq]; rfl
  · rw [heq]

/-- C8 (witness): a successful pipeline in a deployment with both storage
variables unset ends at the storage stage with the 500 response. -/
theorem storage_unconfigured_failure_witness :
    generate_resume (sampleEnv (Yaml.map []) (BuildResult.built "John Doe") "" "")
        "cv:\n  name: John Doe" "classic"
      = ⟨500, false,
          some "Supabase storage not configured. Set SUPABASE_URL and SUPABASE_KEY environment variables.",
          none,
          ["Received YAML (" ++ toString ("cv:\n  name: John Doe" : String).length ++ " chars)",
           "Theme: " ++ "classic",
           "Built RenderCV model: " ++ "John Doe",
           "Generated Typst file",
           "Compiled PDF (" ++ toString 12345 ++ " bytes)",
           "ERROR: Supabase not configured"]⟩ :=
  (storage_unconfigured_failure
    (sampleEnv (Yaml.map []) (BuildResult.built "John Doe") "" "")
    "cv:\n  name: John Doe" "classic" "cv:\n  name: John Doe\ndesign:\n  theme: classic\n"
    "John Doe" "resume.typ" 12345
    (by decide) rfl rfl rfl rfl rfl (Or.inl rfl)).1

/-! ## Claim C9 — BuildError status mapping -/

/-- C9: a generic (non-validation) exception during model construction is
answered with status 400 — not 500 — carrying the build-failure message
in the error field and an appended ERROR log entry. -/
theorem build_error_maps_to_400 (env : Env) (yaml_content theme injected m : String)
    (hne : yaml_content ≠ "")
    (himp : env.importError = none)
    (hinj : inject_theme env.parse env.dump (clean_yaml_content yaml_content) theme
      = Except.ok injected)
    (hbuild : env.build injected = BuildResult.buildError m) :
    generate_resume env yaml_content theme
      = ⟨400, false, some ("Model build failed: " ++ m), none,
          ["Received YAML (" ++ toString yaml_content.length ++ " chars)",
           "Theme: " ++ theme,
           "ERROR: Model build failed: " ++ m]⟩ := by
  simp [generate_resume, hne, himp, hinj, hbuild]

/-- C9 (witness): a concrete generic build failure gets the 400 response. -/
theorem build_error_maps_to_400_witness :
    generate_resume
        (sampleEnv (Yaml.map []) (BuildResult.buildError "division by zero")
          "https://supabase.example" "service-key")
        "cv:\n  name: John Doe" "classic"
      = ⟨400, false, some ("Model build failed: " ++ "division by zero"), none,
          ["Received YAML (" ++ toString ("cv:\n  name: John Doe" : String).length ++ " chars)",
           "Theme: " ++ "classic",
           "ERROR: Model build failed: " ++ "division by zero"]⟩ :=
  build_error_maps_to_400
    (sampleEnv (Yaml.map []) (BuildResult.buildError "division by zero")
      "https://supabase.example" "service-key")
    "cv:\n  name: John Doe" "classic" "cv:\n  name: John Doe\ndesign:\n  theme: classic\n"
    "division by zero" (by decide) rfl rfl rfl

/-! ## Claim C10 — non-mapping documents hit the outer catch-all -/

/-- C10: if the body parses successfully but the top-level value is
neither a mapping nor null, `inject_theme` raises (it neither injects a
theme nor returns the original text), the exception escapes to the outer
catch-all, and the request is answered 500 with the raw exception message
(not a validation diagnostic) and an "Unexpected error" log entry. -/
theorem nonmapping_document_hits_catch_all (env : Env) (yaml_content theme : String)
    (data : Yaml)
    (hne : yaml_content ≠ "")
    (himp : env.importError = none)
    (hparse : env.parse (clean_yaml_content yaml_content) = ParseResult.parsed data)
    (hnm : isMapOrNull data = false) :
    inject_theme env.parse env.dump (clean_yaml_content yaml_content) theme
      = Except.error PyErr.typeError
    ∧ generate_resume env yaml_content theme
      = ⟨500, false, some (pyErrStr PyErr.typeError), none,
         ["Received YAML (" ++ toString yaml_content.length ++ " chars)",
          "Theme: " ++ theme,
          "ERROR: Unexpected error: " ++ pyErrStr PyErr.typeError]⟩ := by
  have hinj : inject_theme env.parse env.dump (clean_yaml_content yaml_content) theme
      = Except.error PyErr.typeError := by
    simp [inject_theme, hparse, inject_theme_data_nonmap data theme hnm]
  exact ⟨hinj, by simp [generate_resume, hne, himp, hinj]⟩

/-- C10 (witness): a document parsing to a top-level list reaches the
outer catch-all and is answered 500. -/
theorem nonmapping_document_hits_catch_all_witness :
    inject_theme (sampleEnv (Yaml.list []) (BuildResult.built "X") "" "").parse
        (sampleEnv (Yaml.list []) (BuildResult.built "X") "" "").dump
        (clean_yaml_content "- a\n- b") "classic"
      = Except.error PyErr.typeError
    ∧ generate_resume (sampleEnv (Yaml.list []) (BuildResult.built "X") "" "")
        "- a\n- b" "classic"
      = ⟨500, false, some (pyErrStr PyErr.typeError), none,
         ["Received YAML (" ++ toString ("- a\n- b" : String).length ++ " chars)",
          "Theme: " ++ "classic",
          "ERROR: Unexpected error: " ++ pyErrStr PyErr.typeError]⟩ :=
  nonmapping_document_hits_catch_all
    (sampleEnv (Yaml.list []) (BuildResult.built "X") "" "")
    "- a\n- b" "classic" (Yaml.list []) (by decide) rfl rfl rfl

end TypstApi
